import Mathlib

/-
  Verification of the ws-scrcpy DeviceScreen client (src/DeviceScreen.ts).

  The embedding models JavaScript numbers as rationals (ℚ), DOM mouse events
  as flat records carrying the fields the code reads, the WebSocket and the
  VideoConverter as opaque collaborators whose invocations are recorded in an
  output action trace, and the DeviceScreen instance state as an explicit
  record threaded through the event handlers.
-/

namespace WsScrcpy

/-- Modelled from the spec: StreamInfo (src/StreamInfo.ts is not in the
    sources). An immutable value of width, height, frameRate plus codec
    parameters opaque to this core; equality is value-based. The opaque codec
    parameters are collapsed into one field `codec`. -/
structure StreamInfo where
  width : ℚ
  height : ℚ
  frameRate : ℚ
  codec : ℕ
  deriving DecidableEq, Repr

/-- Modelled from the spec: StreamInfo.equals is value-based equality
    (two instances with identical width/height/frameRate/codec params are
    equal). -/
def StreamInfo.equals (a b : StreamInfo) : Bool :=
  decide (a = b)

/-- Point from src/Point.ts (collaborator): a pair of coordinates. -/
structure Point where
  x : ℚ
  y : ℚ
  deriving DecidableEq, Repr

/-- Size from src/Size.ts (collaborator): a width/height pair. -/
structure Size where
  width : ℚ
  height : ℚ
  deriving DecidableEq, Repr

/-- Position from src/Position.ts (collaborator): a point paired with the
    bounding size of its coordinate space. -/
structure Position where
  point : Point
  size : Size
  deriving DecidableEq, Repr

/-- MotionControlEvent from src/ControlEvent.ts (collaborator): action code,
    button code and position. The button code is `Option ℤ` because the
    source looks it up in `BUTTONS_MAP` without a guard, so a JavaScript
    `undefined` (here `none`) can flow into the constructed event. -/
structure MotionControlEvent where
  action : ℕ
  button : Option ℤ
  position : Position
  deriving DecidableEq, Repr

/-- Modelled from the spec: MotionEvent.BUTTON_TERTIARY (src/MotionEvent.ts
    is not in the sources); a platform-specific raw button code documented as
    a constant. The concrete value is irrelevant to every claim. -/
def MotionEvent.BUTTON_TERTIARY : ℤ := 4

/-- Modelled from the spec: MotionEvent action codes (src/MotionEvent.ts is
    not in the sources); fixed distinct action constants. -/
def MotionEvent.ACTION_DOWN : ℕ := 0

/-- Modelled from the spec: see `MotionEvent.ACTION_DOWN`. -/
def MotionEvent.ACTION_UP : ℕ := 1

/-- Modelled from the spec: see `MotionEvent.ACTION_DOWN`. -/
def MotionEvent.ACTION_MOVE : ℕ := 2

/-- `DeviceScreen.BUTTONS_MAP` (DeviceScreen.ts lines 22-26): partial map
    from the DOM button id to the wire button code; an id outside 0,1,2 is
    absent (`undefined` in JavaScript, `none` here). -/
def BUTTONS_MAP (b : ℤ) : Option ℤ :=
  if b = 0 then some 17
  else if b = 1 then some MotionEvent.BUTTON_TERTIARY
  else if b = 2 then some 26
  else none

/-- `DeviceScreen.EVENT_ACTION_MAP` (DeviceScreen.ts lines 28-32): partial
    map from the DOM event type string to the action code. -/
def EVENT_ACTION_MAP (t : String) : Option ℕ :=
  if t = "mousedown" then some MotionEvent.ACTION_DOWN
  else if t = "mousemove" then some MotionEvent.ACTION_MOVE
  else if t = "mouseup" then some MotionEvent.ACTION_UP
  else none

/-- The fields of a DOM MouseEvent that DeviceScreen.ts reads, with the
    event target's box flattened into the record. `targetIsTag` records
    whether `e.target === this.tag`. -/
structure MouseEvent where
  type : String
  button : ℤ
  clientX : ℚ
  clientY : ℚ
  targetIsTag : Bool
  targetOffsetLeft : ℚ
  targetOffsetTop : ℚ
  targetClientWidth : ℚ
  targetClientHeight : ℚ
  deriving DecidableEq, Repr

/-- JavaScript Math.round: round to the nearest integer, halves toward
    positive infinity. -/
def jsRound (q : ℚ) : ℤ :=
  ⌊q + 1 / 2⌋

/-- `touchX` before padding adjustment (line 55): `e.clientX - target.offsetLeft`. -/
def touchXOf (e : MouseEvent) : ℚ :=
  e.clientX - e.targetOffsetLeft

/-- `touchY` before padding adjustment (line 56): `e.clientY - target.offsetTop`. -/
def touchYOf (e : MouseEvent) : ℚ :=
  e.clientY - e.targetOffsetTop

/-- `eps` (line 57). -/
def eps : ℚ := 100000

/-- `ratio` (line 58): `width / height` of the stream. -/
def ratioOf (si : StreamInfo) : ℚ :=
  si.width / si.height

/-- `shouldBe` (line 59): `Math.round(eps * ratio)`. -/
def shouldBeOf (si : StreamInfo) : ℤ :=
  jsRound (eps * ratioOf si)

/-- `haveNow` (line 60): `Math.round(eps * clientWidth / clientHeight)`. -/
def haveNowOf (e : MouseEvent) : ℤ :=
  jsRound (eps * e.targetClientWidth / e.targetClientHeight)

/-- `realHeight` (line 62): `Math.ceil(clientWidth / ratio)`. -/
def realHeightOf (e : MouseEvent) (si : StreamInfo) : ℚ :=
  (⌈e.targetClientWidth / ratioOf si⌉ : ℤ)

/-- `top` (line 63): `(clientHeight - realHeight) / 2`. -/
def topOf (e : MouseEvent) (si : StreamInfo) : ℚ :=
  (e.targetClientHeight - realHeightOf e si) / 2

/-- `realWidth` (line 70): `Math.ceil(clientHeight * ratio)`. -/
def realWidthOf (e : MouseEvent) (si : StreamInfo) : ℚ :=
  (⌈e.targetClientHeight * ratioOf si⌉ : ℤ)

/-- `left` (line 71): `(clientWidth - realWidth) / 2`. -/
def leftOf (e : MouseEvent) (si : StreamInfo) : ℚ :=
  (e.targetClientWidth - realWidthOf e si) / 2

/-- `DeviceScreen.buildMotionEvent` (DeviceScreen.ts lines 46-82). The source
    takes a nullable `streamInfo` (it explicitly tests `!streamInfo`), hence
    `Option StreamInfo` here. Each letterbox branch either rejects a pointer
    in the padding or adjusts the touch coordinate and the effective client
    extent before the final scale `x = touchX * width / clientWidth`,
    `y = touchY * height / clientHeight` (lines 78-79). -/
def buildMotionEvent (e : MouseEvent) (streamInfo : Option StreamInfo) :
    Option MotionControlEvent :=
  match EVENT_ACTION_MAP e.type, streamInfo with
  | some action, some si =>
    let width := si.width
    let height := si.height
    if shouldBeOf si > haveNowOf e then
      if touchYOf e < topOf e si ∨ touchYOf e > topOf e si + realHeightOf e si then
        none
      else
        some ⟨action, BUTTONS_MAP e.button,
          ⟨⟨touchXOf e * width / e.targetClientWidth,
            (touchYOf e - topOf e si) * height / realHeightOf e si⟩,
           ⟨width, height⟩⟩⟩
    else if shouldBeOf si < haveNowOf e then
      if touchXOf e < leftOf e si ∨ touchXOf e > leftOf e si + realWidthOf e si then
        none
      else
        some ⟨action, BUTTONS_MAP e.button,
          ⟨⟨(touchXOf e - leftOf e si) * width / realWidthOf e si,
            touchYOf e * height / e.targetClientHeight⟩,
           ⟨width, height⟩⟩⟩
    else
      some ⟨action, BUTTONS_MAP e.button,
        ⟨⟨touchXOf e * width / e.targetClientWidth,
          touchYOf e * height / e.targetClientHeight⟩,
         ⟨width, height⟩⟩⟩
  | _, _ => none

/-- The letterbox padding region of the geometry map: in the top/bottom
    letterbox case, strictly above the content or strictly below it; in the
    left/right case, symmetrically on x; empty when the fixed-precision
    ratios agree. -/
def inPadding (e : MouseEvent) (si : StreamInfo) : Prop :=
  if shouldBeOf si > haveNowOf e then
    touchYOf e < topOf e si ∨ touchYOf e > topOf e si + realHeightOf e si
  else if shouldBeOf si < haveNowOf e then
    touchXOf e < leftOf e si ∨ touchXOf e > leftOf e si + realWidthOf e si
  else
    False

instance (e : MouseEvent) (si : StreamInfo) : Decidable (inPadding e si) := by
  unfold inPadding
  infer_instance

/-- WebSocket readyState values. -/
inductive WsReadyState
  | CONNECTING
  | OPEN
  | CLOSING
  | CLOSED
  deriving DecidableEq, Repr

/-- `MESSAGE_TYPE_TEXT` (line 9). -/
def MESSAGE_TYPE_TEXT : String := "text"

/-- `MESSAGE_TYPE_STREAM_INFO` (line 10). -/
def MESSAGE_TYPE_STREAM_INFO : String := "stream_info"

/-- `DEFAULT_FPF` (line 11). -/
def DEFAULT_FPF : ℕ := 1

/-- Result of `JSON.parse` on an inbound textual payload: the dynamic fields
    DeviceScreen.ts reads from it (`data.type`, the StreamInfo constructor
    fields, `data.message`). Parsing itself is external to the source. -/
structure JsonData where
  type : String
  width : ℚ
  height : ℚ
  frameRate : ℚ
  codec : ℕ
  message : String
  deriving DecidableEq, Repr

/-- Modelled from the spec: `new StreamInfo(data)` (src/StreamInfo.ts is not
    in the sources) constructs the value from the parsed metadata fields. -/
def StreamInfo.ofData (d : JsonData) : StreamInfo :=
  ⟨d.width, d.height, d.frameRate, d.codec⟩

/-- An inbound WebSocket message: a binary ArrayBuffer payload, or a textual
    payload together with the result of `JSON.parse` on it (`none` when
    parsing throws). -/
inductive WsMessageData
  | binary (payload : List ℕ)
  | text (raw : String) (parsed : Option JsonData)
  deriving DecidableEq, Repr

/-- Observable invocations on the collaborators (VideoConverter, WebSocket,
    console): the output trace of one handler invocation. Converter
    instances are identified by the ℕ handle allocated at construction. -/
inductive Action
  | appendRawData (conv : ℕ) (payload : List ℕ)
  | pause (conv : ℕ)
  | construct (conv : ℕ) (frameRate : ℚ) (fpf : ℕ)
  | play (conv : ℕ)
  | wsSend (ev : MotionControlEvent)
  | wsSendControl (ev : ℕ)
  | wsClose
  | log
  deriving DecidableEq, Repr

/-- The mutable state of a DeviceScreen instance: the WebSocket readyState
    (driven by the environment), the optional current StreamInfo and
    VideoConverter handle, the next fresh converter handle, and the
    `down` drag counter captured by the handlers installed in `init`. -/
structure SessionState where
  wsReadyState : WsReadyState
  streamInfo : Option StreamInfo
  converter : Option ℕ
  nextConverterId : ℕ
  down : ℤ
  deriving DecidableEq, Repr

/-- State after the constructor and `init` (lines 34-40, 137): no stream, no
    converter, counter zero, socket still connecting. -/
def initState : SessionState :=
  ⟨WsReadyState.CONNECTING, none, none, 0, 0⟩

/-- `haveConnection` (lines 42-44): the socket exists and its readyState is
    OPEN. -/
def haveConnection (st : SessionState) : Bool :=
  decide (st.wsReadyState = WsReadyState.OPEN)

/-- `ws.onmessage` (lines 98-129). A binary payload with a converter present
    goes to the converter; otherwise the payload is parsed as JSON (a failed
    parse is logged and the message discarded); a `stream_info` message
    flushes and pauses the old converter only when both a converter and a
    StreamInfo are present and the values differ, then unconditionally stores
    the new StreamInfo and constructs and plays a fresh converter; `text` and
    unknown types are logged only. -/
def onMessage (st : SessionState) (m : WsMessageData) : SessionState × List Action :=
  match m with
  | WsMessageData.binary payload =>
    match st.converter with
    | some conv => (st, [Action.appendRawData conv payload])
    | none => (st, [Action.log])
  | WsMessageData.text _raw parsed =>
    match parsed with
    | none => (st, [Action.log])
    | some data =>
      if data.type = MESSAGE_TYPE_STREAM_INFO then
        let newInfo := StreamInfo.ofData data
        let flushActs : List Action :=
          match st.converter, st.streamInfo with
          | some conv, some info =>
            if info.equals newInfo then []
            else [Action.appendRawData conv [], Action.pause conv]
          | _, _ => []
        let newId := st.nextConverterId
        ({ st with streamInfo := some newInfo, converter := some newId,
                   nextConverterId := newId + 1 },
         flushActs ++ [Action.construct newId newInfo.frameRate DEFAULT_FPF,
                       Action.play newId])
      else if data.type = MESSAGE_TYPE_TEXT then
        (st, [Action.log])
      else
        (st, [Action.log])

/-- The collaborator invocations of `onMouseEvent` (lines 139-153): only
    when the event targets the video tag and the connection is OPEN; silent
    when no StreamInfo has arrived; sends the built motion event if the
    geometry map accepts. -/
def onMouseEventActs (st : SessionState) (e : MouseEvent) : List Action :=
  if e.targetIsTag = true ∧ haveConnection st = true then
    match st.streamInfo with
    | none => []
    | some si =>
      match buildMotionEvent e (some si) with
      | some ev => [Action.wsSend ev]
      | none => []
  else
    []

/-- `onMouseEvent` (lines 139-153) as a state transformer: it never mutates
    the instance state, it only invokes collaborators. -/
def onMouseEvent (st : SessionState) (e : MouseEvent) : SessionState × List Action :=
  (st, onMouseEventActs st e)

/-- `document.body.onmousedown` (lines 155-158): `down++`, then the shared
    mouse-event path. -/
def onMouseDown (st : SessionState) (e : MouseEvent) : SessionState × List Action :=
  onMouseEvent { st with down := st.down + 1 } e

/-- `document.body.onmouseup` (lines 159-162): `down--`, then the shared
    mouse-event path. -/
def onMouseUp (st : SessionState) (e : MouseEvent) : SessionState × List Action :=
  onMouseEvent { st with down := st.down - 1 } e

/-- `document.body.onmousemove` (lines 163-167): the shared mouse-event path
    runs only while `down > 0`. -/
def onMouseMove (st : SessionState) (e : MouseEvent) : SessionState × List Action :=
  if st.down > 0 then onMouseEvent st e else (st, [])

/-- `setStreamInfo` (lines 174-176): stores the StreamInfo, touching nothing
    else. -/
def setStreamInfo (st : SessionState) (info : StreamInfo) : SessionState :=
  { st with streamInfo := some info }

/-- `sendEvent` (lines 178-182): sends only when `haveConnection`. The
    ControlEvent argument is opaque (ℕ tag). -/
def sendEvent (st : SessionState) (ev : ℕ) : SessionState × List Action :=
  if haveConnection st = true then (st, [Action.wsSendControl ev]) else (st, [])

/-- `stop` (lines 188-195): closes the socket if open, pauses the converter
    if present. -/
def stop (st : SessionState) : SessionState × List Action :=
  let closeActs : List Action :=
    if haveConnection st = true then [Action.wsClose] else []
  let pauseActs : List Action :=
    match st.converter with
    | some conv => [Action.pause conv]
    | none => []
  (st, closeActs ++ pauseActs)

/-- A public operation on the session: an inbound channel message, a pointer
    event dispatched to one of the three document handlers, a public method
    call, or an environment-driven change of the socket readyState. -/
inductive Op
  | recv (m : WsMessageData)
  | mouseDown (e : MouseEvent)
  | mouseUp (e : MouseEvent)
  | mouseMove (e : MouseEvent)
  | sendEv (ev : ℕ)
  | setInfo (info : StreamInfo)
  | doStop
  | wsTransition (s : WsReadyState)
  deriving DecidableEq, Repr

/-- One callback dispatch: the state after the operation and the trace of
    collaborator invocations it performed. -/
def applyOp (st : SessionState) (op : Op) : SessionState × List Action :=
  match op with
  | Op.recv m => onMessage st m
  | Op.mouseDown e => onMouseDown st e
  | Op.mouseUp e => onMouseUp st e
  | Op.mouseMove e => onMouseMove st e
  | Op.sendEv ev => sendEvent st ev
  | Op.setInfo info => (setStreamInfo st info, [])
  | Op.doStop => stop st
  | Op.wsTransition s => ({ st with wsReadyState := s }, [])

/-- Run a sequence of operations from a state; the reachable states are
    exactly `runOps initState ops` for the possible `ops`. -/
def runOps (st : SessionState) (ops : List Op) : SessionState :=
  ops.foldl (fun s op => (applyOp s op).1) st

/-- Whether an operation is a `setStreamInfo` call. -/
def isSetInfo : Op → Bool
  | Op.setInfo _ => true
  | _ => false

/-- Whether an operation is a `mousedown` dispatch. -/
def isMouseDownOp : Op → Bool
  | Op.mouseDown _ => true
  | _ => false

/-- Whether an operation is a `mouseup` dispatch. -/
def isMouseUpOp : Op → Bool
  | Op.mouseUp _ => true
  | _ => false

/-- Number of `mousedown` dispatches in an operation sequence. -/
def countDownOps (ops : List Op) : ℕ :=
  (ops.filter isMouseDownOp).length

/-- Number of `mouseup` dispatches in an operation sequence. -/
def countUpOps (ops : List Op) : ℕ :=
  (ops.filter isMouseUpOp).length

/-- The spec's session invariant: the decoder handle is present iff the
    current StreamInfo is present. -/
def decoderMatchesInfo (st : SessionState) : Prop :=
  st.streamInfo.isSome = st.converter.isSome

lemma onMessage_fst_streamInfo_converter (st : SessionState) (m : WsMessageData) :
    ((onMessage st m).1 = st) ∨
    (∃ info id, (onMessage st m).1 =
      { st with streamInfo := some info, converter := some id,
                nextConverterId := id + 1 }) := by
  rcases m with payload | ⟨raw, parsed⟩
  · rcases hc : st.converter with _ | conv
    · simp [onMessage, hc]
    · simp [onMessage, hc]
  · rcases parsed with _ | data
    · simp [onMessage]
    · simp only [onMessage]
      split_ifs with h1 h2
      · exact Or.inr ⟨StreamInfo.ofData data, st.nextConverterId, rfl⟩
      · exact Or.inl rfl
      · exact Or.inl rfl

lemma applyOp_preserves_decoderMatchesInfo (st : SessionState) (op : Op)
    (hop : isSetInfo op = false) (h : decoderMatchesInfo st) :
    decoderMatchesInfo (applyOp st op).1 := by
  cases op with
  | recv m =>
    rcases onMessage_fst_streamInfo_converter st m with heq | ⟨info, id, heq⟩ <;>
      simp only [applyOp, heq] <;> simp [decoderMatchesInfo] at h ⊢ <;> exact h
  | mouseDown e => exact h
  | mouseUp e => exact h
  | mouseMove e =>
    simp only [applyOp, onMouseMove]
    split_ifs <;> exact h
  | sendEv ev =>
    simp only [applyOp, sendEvent]
    split_ifs <;> exact h
  | setInfo info => simp [isSetInfo] at hop
  | doStop => exact h
  | wsTransition s => exact h

lemma runOps_preserves_decoderMatchesInfo (ops : List Op) :
    ∀ st : SessionState, decoderMatchesInfo st →
      (∀ op ∈ ops, isSetInfo op = false) →
      decoderMatchesInfo (runOps st ops) := by
  induction ops with
  | nil => exact fun st h _ => h
  | cons op ops ih =>
    intro st h hall
    exact ih (applyOp st op).1
      (applyOp_preserves_decoderMatchesInfo st op (hall op (List.mem_cons_self op ops)) h)
      (fun o ho => hall o (List.mem_cons_of_mem op ho))

lemma onMessage_fst_down (st : SessionState) (m : WsMessageData) :
    ((onMessage st m).1).down = st.down := by
  rcases onMessage_fst_streamInfo_converter st m with heq | ⟨info, id, heq⟩ <;> rw [heq]

lemma applyOp_down (st : SessionState) (op : Op) :
    ((applyOp st op).1).down =
      st.down + (if isMouseDownOp op then 1 else 0)
              - (if isMouseUpOp op then 1 else 0) := by
  cases op with
  | recv m =>
    simp [applyOp, isMouseDownOp, isMouseUpOp, onMessage_fst_down st m]
  | mouseDown e => simp [applyOp, onMouseDown, onMouseEvent, isMouseDownOp, isMouseUpOp]
  | mouseUp e =>
    simp [applyOp, onMouseUp, onMouseEvent, isMouseDownOp, isMouseUpOp]
  | mouseMove e =>
    simp only [applyOp, onMouseMove, isMouseDownOp, isMouseUpOp]
    split_ifs <;> simp [onMouseEvent]
  | sendEv ev =>
    simp only [applyOp, sendEvent, isMouseDownOp, isMouseUpOp]
    split_ifs <;> simp
  | setInfo info => simp [applyOp, setStreamInfo, isMouseDownOp, isMouseUpOp]
  | doStop => simp [applyOp, stop, isMouseDownOp, isMouseUpOp]
  | wsTransition s => simp [applyOp, isMouseDownOp, isMouseUpOp]

lemma runOps_down (ops : List Op) :
    ∀ st : SessionState,
      (runOps st ops).down = st.down + (countDownOps ops : ℤ) - (countUpOps ops : ℤ) := by
  induction ops with
  | nil => intro st; simp [runOps, countDownOps, countUpOps]
  | cons op ops ih =>
    intro st
    have hrec := ih (applyOp st op).1
    have hstep := applyOp_down st op
    have hcd : countDownOps (op :: ops) =
        (if isMouseDownOp op then 1 else 0) + countDownOps ops := by
      cases hop : isMouseDownOp op <;>
        simp [countDownOps, List.filter_cons, hop, Nat.add_comm]
    have hcu : countUpOps (op :: ops) =
        (if isMouseUpOp op then 1 else 0) + countUpOps ops := by
      cases hop : isMouseUpOp op <;>
        simp [countUpOps, List.filter_cons, hop, Nat.add_comm]
    have hfold : runOps st (op :: ops) = runOps (applyOp st op).1 ops := rfl
    rw [hfold, hrec, hstep, hcd, hcu]
    cases isMouseDownOp op <;> cases isMouseUpOp op <;> push_cast <;> ring

lemma BUTTONS_MAP_eq_none (b : ℤ) (h0 : b ≠ 0) (h1 : b ≠ 1) (h2 : b ≠ 2) :
    BUTTONS_MAP b = none := by
  simp [BUTTONS_MAP, h0, h1, h2]

lemma buildMotionEvent_some_of_not_inPadding (e : MouseEvent) (si : StreamInfo) (a : ℕ)
    (ha : EVENT_ACTION_MAP e.type = some a) (hin : ¬ inPadding e si) :
    ∃ ev : MotionControlEvent, buildMotionEvent e (some si) = some ev ∧
      ev.button = BUTTONS_MAP e.button := by
  unfold inPadding at hin
  simp only [buildMotionEvent, ha]
  by_cases h1 : shouldBeOf si > haveNowOf e
  · rw [if_pos h1] at hin ⊢
    rw [if_neg hin]
    exact ⟨_, rfl, rfl⟩
  · rw [if_neg h1] at hin ⊢
    by_cases h2 : shouldBeOf si < haveNowOf e
    · rw [if_pos h2] at hin ⊢
      rw [if_neg hin]
      exact ⟨_, rfl, rfl⟩
    · rw [if_neg h2] at hin ⊢
      exact ⟨_, rfl, rfl⟩

lemma onMouseEventActs_send (st : SessionState) (e : MouseEvent) (si : StreamInfo)
    (ev : MotionControlEvent) (htag : e.targetIsTag = true)
    (hopen : st.wsReadyState = WsReadyState.OPEN) (hsi : st.streamInfo = some si)
    (hev : buildMotionEvent e (some si) = some ev) :
    onMouseEventActs st e = [Action.wsSend ev] := by
  unfold onMouseEventActs
  rw [hsi]
  simp [htag, haveConnection, hopen, hev]

lemma shouldBeOf_1920_1080 (fr : ℚ) (c : ℕ) :
    shouldBeOf ⟨1920, 1080, fr, c⟩ = 177778 := by
  norm_num [shouldBeOf, ratioOf, jsRound, eps]

lemma haveNowOf_400_300 (t : String) (b : ℤ) (cx cy : ℚ) (tag : Bool) :
    haveNowOf ⟨t, b, cx, cy, tag, 0, 0, 400, 300⟩ = 133333 := by
  norm_num [haveNowOf, jsRound, eps]

lemma realHeightOf_400_300_of_1920_1080 (t : String) (b : ℤ) (cx cy : ℚ) (tag : Bool)
    (fr : ℚ) (c : ℕ) :
    realHeightOf ⟨t, b, cx, cy, tag, 0, 0, 400, 300⟩ ⟨1920, 1080, fr, c⟩ = 225 := by
  norm_num [realHeightOf, ratioOf]

lemma topOf_400_300_of_1920_1080 (t : String) (b : ℤ) (cx cy : ℚ) (tag : Bool)
    (fr : ℚ) (c : ℕ) :
    topOf ⟨t, b, cx, cy, tag, 0, 0, 400, 300⟩ ⟨1920, 1080, fr, c⟩ = 75 / 2 := by
  norm_num [topOf, realHeightOf, ratioOf]

lemma buildMotionEvent_example_accept (t : String) (a : ℕ) (b : ℤ) (fr : ℚ) (c : ℕ)
    (ha : EVENT_ACTION_MAP t = some a) :
    buildMotionEvent ⟨t, b, 200, 150, true, 0, 0, 400, 300⟩ (some ⟨1920, 1080, fr, c⟩) =
      some ⟨a, BUTTONS_MAP b, ⟨⟨960, 540⟩, ⟨1920, 1080⟩⟩⟩ := by
  have hsb := shouldBeOf_1920_1080 fr c
  have hhn := haveNowOf_400_300 t b 200 150 true
  have hrh := realHeightOf_400_300_of_1920_1080 t b 200 150 true fr c
  have htop := topOf_400_300_of_1920_1080 t b 200 150 true fr c
  simp only [buildMotionEvent, ha, hsb, hhn, htop, hrh, touchXOf, touchYOf]
  norm_num

lemma not_inPadding_example_150 (t : String) (b : ℤ) (fr : ℚ) (c : ℕ) :
    ¬ inPadding ⟨t, b, 200, 150, true, 0, 0, 400, 300⟩ ⟨1920, 1080, fr, c⟩ := by
  have hsb := shouldBeOf_1920_1080 fr c
  have hhn := haveNowOf_400_300 t b 200 150 true
  have hrh := realHeightOf_400_300_of_1920_1080 t b 200 150 true fr c
  have htop := topOf_400_300_of_1920_1080 t b 200 150 true fr c
  simp only [inPadding, hsb, hhn, htop, hrh, touchXOf, touchYOf]
  norm_num

/-- Claim C1 counterexample: with an active decoder (handle 0) and a current
    StreamInfo, receiving a stream-metadata message carrying the very same
    StreamInfo value does NOT leave the decoder instance unchanged: the
    handler stores a fresh decoder (handle 1) and emits a construct and a
    start (play) invocation, contradicting the claimed no-op. -/
theorem C1_counterexample :
    applyOp ⟨WsReadyState.OPEN, some ⟨1920, 1080, 60, 0⟩, some 0, 1, 0⟩
        (Op.recv (WsMessageData.text "m" (some ⟨"stream_info", 1920, 1080, 60, 0, ""⟩))) =
      (⟨WsReadyState.OPEN, some ⟨1920, 1080, 60, 0⟩, some 1, 2, 0⟩,
       [Action.construct 1 60 1, Action.play 1]) := by
  decide

/-- Claim C1 (amended): on receiving a stream-metadata message whose
    StreamInfo is equal by value to the current one while a decoder is
    active, the handler performs no flush and no stop of the old decoder,
    but it still constructs a fresh decoder and starts it, replacing the
    stored decoder handle with the fresh one. -/
theorem C1_equal_streaminfo_restarts_decoder (st : SessionState) (c : ℕ)
    (data : JsonData) (raw : String)
    (hc : st.converter = some c)
    (htype : data.type = MESSAGE_TYPE_STREAM_INFO)
    (hi : st.streamInfo = some (StreamInfo.ofData data)) :
    applyOp st (Op.recv (WsMessageData.text raw (some data))) =
      ({ st with streamInfo := some (StreamInfo.ofData data),
                 converter := some st.nextConverterId,
                 nextConverterId := st.nextConverterId + 1 },
       [Action.construct st.nextConverterId (StreamInfo.ofData data).frameRate DEFAULT_FPF,
        Action.play st.nextConverterId]) := by
  simp only [applyOp, onMessage, htype, hc, hi]
  simp [StreamInfo.equals]

/-- Claim C1 witness. -/
theorem C1_equal_streaminfo_restarts_decoder_witness :
    applyOp ⟨WsReadyState.OPEN, some (StreamInfo.ofData ⟨"stream_info", 1280, 720, 30, 5, ""⟩),
             some 4, 7, 2⟩
        (Op.recv (WsMessageData.text "w" (some ⟨"stream_info", 1280, 720, 30, 5, ""⟩))) =
      ({ wsReadyState := WsReadyState.OPEN,
         streamInfo := some (StreamInfo.ofData ⟨"stream_info", 1280, 720, 30, 5, ""⟩),
         converter := some 7, nextConverterId := 8, down := 2 },
       [Action.construct 7 (StreamInfo.ofData ⟨"stream_info", 1280, 720, 30, 5, ""⟩).frameRate
          DEFAULT_FPF,
        Action.play 7]) :=
  C1_equal_streaminfo_restarts_decoder
    ⟨WsReadyState.OPEN, some (StreamInfo.ofData ⟨"stream_info", 1280, 720, 30, 5, ""⟩), some 4, 7, 2⟩
    4 ⟨"stream_info", 1280, 720, 30, 5, ""⟩ "w" rfl rfl rfl

/-- Claim C2 counterexample: from the initial state, the public operation
    `setStreamInfo` stores a StreamInfo without creating any decoder, so the
    claimed invariant (decoder present iff StreamInfo present) is violated
    in a reachable state. -/
theorem C2_counterexample :
    (runOps initState [Op.setInfo ⟨1920, 1080, 60, 0⟩]).streamInfo.isSome = true ∧
    (runOps initState [Op.setInfo ⟨1920, 1080, 60, 0⟩]).converter.isSome = false := by
  decide

/-- Claim C2 (amended): in every state reachable by public operations other
    than `setStreamInfo` (inbound messages, pointer dispatches, sendEvent,
    stop, socket readyState changes), the decoder handle is present iff the
    current StreamInfo is present; `setStreamInfo` itself can break the
    invariant. -/
theorem C2_decoder_iff_streaminfo (ops : List Op)
    (h : ∀ op ∈ ops, isSetInfo op = false) :
    (runOps initState ops).streamInfo.isSome = (runOps initState ops).converter.isSome :=
  runOps_preserves_decoderMatchesInfo ops initState rfl h

/-- Claim C2 witness. -/
theorem C2_decoder_iff_streaminfo_witness :
    (runOps initState
        [Op.wsTransition WsReadyState.OPEN,
         Op.recv (WsMessageData.text "x" (some ⟨"stream_info", 1920, 1080, 60, 0, ""⟩)),
         Op.doStop]).streamInfo.isSome =
      (runOps initState
        [Op.wsTransition WsReadyState.OPEN,
         Op.recv (WsMessageData.text "x" (some ⟨"stream_info", 1920, 1080, 60, 0, ""⟩)),
         Op.doStop]).converter.isSome :=
  C2_decoder_iff_streaminfo
    [Op.wsTransition WsReadyState.OPEN,
     Op.recv (WsMessageData.text "x" (some ⟨"stream_info", 1920, 1080, 60, 0, ""⟩)),
     Op.doStop]
    (by decide)

/-- Claim C3 counterexample: a single `mouseup` dispatch from the initial
    state (drag counter 0) drives the counter to -1: the decrement is not
    clamped at zero. -/
theorem C3_counterexample :
    (runOps initState [Op.mouseUp ⟨"mouseup", 0, 0, 0, false, 0, 0, 1, 1⟩]).down = -1 := by
  decide

/-- Claim C3 (amended): the drag counter is incremented by press and
    decremented by release without any clamping, so it equals the number of
    presses minus the number of releases; it is non-negative exactly on
    those operation sequences whose releases do not outnumber presses, and
    an unmatched release does take it below zero. -/
theorem C3_down_nonneg_of_balanced (ops : List Op)
    (h : countUpOps ops ≤ countDownOps ops) :
    0 ≤ (runOps initState ops).down := by
  rw [runOps_down ops initState]
  simp only [initState]
  omega

/-- Claim C3 witness. -/
theorem C3_down_nonneg_of_balanced_witness :
    0 ≤ (runOps initState
        [Op.mouseDown ⟨"mousedown", 0, 0, 0, false, 0, 0, 1, 1⟩,
         Op.mouseUp ⟨"mouseup", 0, 0, 0, false, 0, 0, 1, 1⟩]).down :=
  C3_down_nonneg_of_balanced
    [Op.mouseDown ⟨"mousedown", 0, 0, 0, false, 0, 0, 1, 1⟩,
     Op.mouseUp ⟨"mouseup", 0, 0, 0, false, 0, 0, 1, 1⟩]
    (by decide)

/-- Claim C4: on receiving a stream-metadata message whose StreamInfo
    differs by value from the current one while a decoder is active, the
    handler's collaborator trace is exactly: flush the old decoder with an
    empty payload, stop (pause) it, and only then construct and start the
    new decoder — flush and stop strictly precede construction and start. -/
theorem C4_flush_stop_precede_new_decoder (st : SessionState) (c : ℕ)
    (info0 : StreamInfo) (data : JsonData) (raw : String)
    (hc : st.converter = some c)
    (hi : st.streamInfo = some info0)
    (htype : data.type = MESSAGE_TYPE_STREAM_INFO)
    (hne : info0 ≠ StreamInfo.ofData data) :
    (applyOp st (Op.recv (WsMessageData.text raw (some data)))).2 =
      [Action.appendRawData c [], Action.pause c,
       Action.construct st.nextConverterId (StreamInfo.ofData data).frameRate DEFAULT_FPF,
       Action.play st.nextConverterId] := by
  simp only [applyOp, onMessage, htype, hc, hi]
  simp [StreamInfo.equals, hne]

/-- Claim C4 witness. -/
theorem C4_flush_stop_precede_new_decoder_witness :
    (applyOp ⟨WsReadyState.OPEN, some ⟨1920, 1080, 60, 0⟩, some 0, 1, 0⟩
        (Op.recv (WsMessageData.text "w4" (some ⟨"stream_info", 1280, 720, 30, 0, ""⟩)))).2 =
      [Action.appendRawData 0 [], Action.pause 0,
       Action.construct 1 (StreamInfo.ofData ⟨"stream_info", 1280, 720, 30, 0, ""⟩).frameRate
         DEFAULT_FPF,
       Action.play 1] :=
  C4_flush_stop_precede_new_decoder
    ⟨WsReadyState.OPEN, some ⟨1920, 1080, 60, 0⟩, some 0, 1, 0⟩
    0 ⟨1920, 1080, 60, 0⟩ ⟨"stream_info", 1280, 720, 30, 0, ""⟩ "w4"
    rfl rfl rfl (by decide)

/-- Claim C5: for viewport 400×300 and stream 1920×1080 the geometry mapping
    behaves exactly as the worked example: the fixed-precision comparison
    gives shouldBe 177778 > haveNow 133333 (top/bottom letterbox),
    realHeight = 225, top = 37.5; a mousedown at (200, 10) is rejected
    because 10 < 37.5, and a mousedown at (200, 150) maps to device point
    (960, 540). -/
theorem C5_worked_example :
    shouldBeOf ⟨1920, 1080, 60, 0⟩ = 177778 ∧
    haveNowOf ⟨"mousedown", 0, 200, 10, true, 0, 0, 400, 300⟩ = 133333 ∧
    realHeightOf ⟨"mousedown", 0, 200, 10, true, 0, 0, 400, 300⟩ ⟨1920, 1080, 60, 0⟩ = 225 ∧
    topOf ⟨"mousedown", 0, 200, 10, true, 0, 0, 400, 300⟩ ⟨1920, 1080, 60, 0⟩ = 75 / 2 ∧
    buildMotionEvent ⟨"mousedown", 0, 200, 10, true, 0, 0, 400, 300⟩
      (some ⟨1920, 1080, 60, 0⟩) = none ∧
    buildMotionEvent ⟨"mousedown", 0, 200, 150, true, 0, 0, 400, 300⟩
      (some ⟨1920, 1080, 60, 0⟩) =
      some ⟨MotionEvent.ACTION_DOWN, some 17, ⟨⟨960, 540⟩, ⟨1920, 1080⟩⟩⟩ := by
  have ha : EVENT_ACTION_MAP "mousedown" = some MotionEvent.ACTION_DOWN := by decide
  have hsb := shouldBeOf_1920_1080 60 0
  have hhn := haveNowOf_400_300 "mousedown" 0 200 10 true
  have hrh := realHeightOf_400_300_of_1920_1080 "mousedown" 0 200 10 true 60 0
  have htop := topOf_400_300_of_1920_1080 "mousedown" 0 200 10 true 60 0
  refine ⟨hsb, hhn, hrh, htop, ?_, ?_⟩
  · simp only [buildMotionEvent, ha, hsb, hhn, htop, hrh, touchXOf, touchYOf]
    norm_num
  · have := buildMotionEvent_example_accept "mousedown" MotionEvent.ACTION_DOWN 0 60 0 ha
    simpa [BUTTONS_MAP] using this

/-- Claim C6: whenever the event type is known, the viewport and stream
    dimensions are positive, the fixed-precision aspect ratios differ, and
    the pointer lies strictly within the letterbox padding region (strictly
    outside the content band on the letterboxed axis), the geometry map
    rejects the pointer: buildMotionEvent returns none rather than a device
    point. -/
theorem C6_padding_rejected (e : MouseEvent) (si : StreamInfo) (a : ℕ)
    (ha : EVENT_ACTION_MAP e.type = some a)
    (hw : 0 < si.width) (hh : 0 < si.height)
    (hcw : 0 < e.targetClientWidth) (hch : 0 < e.targetClientHeight)
    (hdiff : shouldBeOf si ≠ haveNowOf e)
    (hpad : inPadding e si) :
    buildMotionEvent e (some si) = none := by
  unfold inPadding at hpad
  simp only [buildMotionEvent, ha]
  by_cases h1 : shouldBeOf si > haveNowOf e
  · rw [if_pos h1] at hpad ⊢
    rw [if_pos hpad]
  · rw [if_neg h1] at hpad ⊢
    by_cases h2 : shouldBeOf si < haveNowOf e
    · rw [if_pos h2] at hpad ⊢
      rw [if_pos hpad]
    · rw [if_neg h2] at hpad
      exact hpad.elim

/-- Claim C6 witness. -/
theorem C6_padding_rejected_witness :
    buildMotionEvent ⟨"mouseup", 1, 200, 290, true, 0, 0, 400, 300⟩
      (some ⟨1920, 1080, 25, 3⟩) = none :=
  C6_padding_rejected ⟨"mouseup", 1, 200, 290, true, 0, 0, 400, 300⟩
    ⟨1920, 1080, 25, 3⟩ MotionEvent.ACTION_UP
    (by decide) (by norm_num) (by norm_num) (by norm_num) (by norm_num)
    (by
      rw [shouldBeOf_1920_1080 25 3, haveNowOf_400_300 "mouseup" 1 200 290 true]
      norm_num)
    (by
      simp only [inPadding, shouldBeOf_1920_1080 25 3,
        haveNowOf_400_300 "mouseup" 1 200 290 true,
        topOf_400_300_of_1920_1080 "mouseup" 1 200 290 true 25 3,
        realHeightOf_400_300_of_1920_1080 "mouseup" 1 200 290 true 25 3, touchYOf]
      norm_num)

/-- Claim C7: a mousemove dispatched while the drag counter is 0 produces no
    wire send, while the identical mousemove (same event, same target, same
    coordinates, connection OPEN, StreamInfo present, pointer accepted by
    the geometry map) dispatched while the counter is at least 1 produces
    exactly one wire send of the built motion event. -/
theorem C7_move_suppression (st : SessionState) (e : MouseEvent) (si : StreamInfo)
    (ev : MotionControlEvent) (d : ℤ)
    (htag : e.targetIsTag = true)
    (hopen : st.wsReadyState = WsReadyState.OPEN)
    (hsi : st.streamInfo = some si)
    (hev : buildMotionEvent e (some si) = some ev)
    (hd : 1 ≤ d) :
    (applyOp { st with down := 0 } (Op.mouseMove e)).2 = [] ∧
    (applyOp { st with down := d } (Op.mouseMove e)).2 = [Action.wsSend ev] := by
  constructor
  · simp [applyOp, onMouseMove]
  · have hpos : (0 : ℤ) < d := by omega
    simp only [applyOp, onMouseMove]
    rw [if_pos (by simpa using hpos)]
    simp only [onMouseEvent]
    exact onMouseEventActs_send _ e si ev htag hopen hsi hev

/-- Claim C7 witness. -/
theorem C7_move_suppression_witness :
    (applyOp { (⟨WsReadyState.OPEN, some ⟨1920, 1080, 60, 0⟩, some 0, 1, 3⟩ : SessionState)
                 with down := 0 }
        (Op.mouseMove ⟨"mousemove", 0, 200, 150, true, 0, 0, 400, 300⟩)).2 = [] ∧
    (applyOp { (⟨WsReadyState.OPEN, some ⟨1920, 1080, 60, 0⟩, some 0, 1, 3⟩ : SessionState)
                 with down := 1 }
        (Op.mouseMove ⟨"mousemove", 0, 200, 150, true, 0, 0, 400, 300⟩)).2 =
      [Action.wsSend ⟨MotionEvent.ACTION_MOVE, some 17, ⟨⟨960, 540⟩, ⟨1920, 1080⟩⟩⟩] :=
  C7_move_suppression ⟨WsReadyState.OPEN, some ⟨1920, 1080, 60, 0⟩, some 0, 1, 3⟩
    ⟨"mousemove", 0, 200, 150, true, 0, 0, 400, 300⟩ ⟨1920, 1080, 60, 0⟩
    ⟨MotionEvent.ACTION_MOVE, some 17, ⟨⟨960, 540⟩, ⟨1920, 1080⟩⟩⟩ 1
    rfl rfl rfl
    (by
      have := buildMotionEvent_example_accept "mousemove" MotionEvent.ACTION_MOVE 0 60 0
        (by decide)
      simpa [BUTTONS_MAP] using this)
    (by decide)

/-- Claim C8: when the socket readyState is not OPEN, both outbound send
    paths are silent no-ops: `sendEvent` and the shared mouse-event path
    return the state unchanged with an empty collaborator trace — nothing is
    sent and no error is raised. -/
theorem C8_no_send_unless_open (st : SessionState) (ev : ℕ) (e : MouseEvent)
    (h : st.wsReadyState ≠ WsReadyState.OPEN) :
    sendEvent st ev = (st, []) ∧ onMouseEvent st e = (st, []) := by
  have hconn : haveConnection st = false := by
    simp [haveConnection, h]
  constructor
  · simp [sendEvent, hconn]
  · simp [onMouseEvent, onMouseEventActs, hconn]

/-- Claim C8 witness. -/
theorem C8_no_send_unless_open_witness :
    sendEvent ⟨WsReadyState.CLOSED, some ⟨1920, 1080, 60, 0⟩, some 0, 1, 1⟩ 9 =
      (⟨WsReadyState.CLOSED, some ⟨1920, 1080, 60, 0⟩, some 0, 1, 1⟩, []) ∧
    onMouseEvent ⟨WsReadyState.CLOSED, some ⟨1920, 1080, 60, 0⟩, some 0, 1, 1⟩
        ⟨"mousedown", 0, 200, 150, true, 0, 0, 400, 300⟩ =
      (⟨WsReadyState.CLOSED, some ⟨1920, 1080, 60, 0⟩, some 0, 1, 1⟩, []) :=
  C8_no_send_unless_open ⟨WsReadyState.CLOSED, some ⟨1920, 1080, 60, 0⟩, some 0, 1, 1⟩
    9 ⟨"mousedown", 0, 200, 150, true, 0, 0, 400, 300⟩ (by decide)

/-- Claim C9: an inbound non-binary payload on which JSON parsing fails is
    discarded without crashing: the session state (StreamInfo, decoder,
    socket state, counter) is unchanged and the only collaborator invocation
    is a log. -/
theorem C9_malformed_discarded (st : SessionState) (raw : String) :
    applyOp st (Op.recv (WsMessageData.text raw none)) = (st, [Action.log]) :=
  rfl

/-- Claim C10: a mouse event with a button identifier outside 0, 1, 2, a
    known event type, a present StreamInfo and a pointer outside the padding
    region still yields a motion event: the unguarded BUTTONS_MAP lookup
    produces an undefined (none) button code, the MotionControlEvent is
    constructed carrying it, and with an OPEN connection the event is sent
    on the wire. -/
theorem C10_unknown_button_still_sent (st : SessionState) (e : MouseEvent)
    (si : StreamInfo) (a : ℕ)
    (ha : EVENT_ACTION_MAP e.type = some a)
    (hb0 : e.button ≠ 0) (hb1 : e.button ≠ 1) (hb2 : e.button ≠ 2)
    (hin : ¬ inPadding e si)
    (htag : e.targetIsTag = true)
    (hopen : st.wsReadyState = WsReadyState.OPEN)
    (hsi : st.streamInfo = some si) :
    ∃ ev : MotionControlEvent, buildMotionEvent e (some si) = some ev ∧
      ev.button = none ∧ onMouseEvent st e = (st, [Action.wsSend ev]) := by
  obtain ⟨ev, hbm, hbtn⟩ := buildMotionEvent_some_of_not_inPadding e si a ha hin
  refine ⟨ev, hbm, ?_, ?_⟩
  · rw [hbtn]
    exact BUTTONS_MAP_eq_none e.button hb0 hb1 hb2
  · simp only [onMouseEvent]
    rw [onMouseEventActs_send st e si ev htag hopen hsi hbm]

/-- Claim C10 witness. -/
theorem C10_unknown_button_still_sent_witness :
    ∃ ev : MotionControlEvent,
      buildMotionEvent ⟨"mousedown", 5, 200, 150, true, 0, 0, 400, 300⟩
        (some ⟨1920, 1080, 60, 0⟩) = some ev ∧
      ev.button = none ∧
      onMouseEvent ⟨WsReadyState.OPEN, some ⟨1920, 1080, 60, 0⟩, some 0, 1, 0⟩
        ⟨"mousedown", 5, 200, 150, true, 0, 0, 400, 300⟩ =
        (⟨WsReadyState.OPEN, some ⟨1920, 1080, 60, 0⟩, some 0, 1, 0⟩, [Action.wsSend ev]) :=
  C10_unknown_button_still_sent ⟨WsReadyState.OPEN, some ⟨1920, 1080, 60, 0⟩, some 0, 1, 0⟩
    ⟨"mousedown", 5, 200, 150, true, 0, 0, 400, 300⟩ ⟨1920, 1080, 60, 0⟩
    MotionEvent.ACTION_DOWN
    (by decide) (by decide) (by decide) (by decide)
    (not_inPadding_example_150 "mousedown" 5 60 0) rfl rfl rfl

end WsScrcpy
